import Mathlib

/-!
Shallow embedding of the Cyderes data-ingestion service (Go) and proofs
about its ingestion loop, retry/backoff logic, transformation step,
storage dispatch and configuration loading.

Conventions of the embedding:
* machine integers (Go `int`) are `Int`; indices and counters that are
  provably non-negative are `Nat`;
* `time.Time` values are abstract instants represented as `Int`
  (the zero value of `time.Time` is `0`); `time.Duration` is `Int`
  nanoseconds; backoff waits are recorded in whole seconds as `Nat`;
* external effects (the HTTP fetch of one attempt, context
  cancellation, storage backend responses, `os.Getenv`,
  `strconv.Atoi`, `time.ParseDuration`) are passed in as explicit
  function parameters, so every definition is executable;
* fallible Go functions returning `(T, error)` become `Except`.
-/

namespace Ingestion

/-! ## Data model (internal/models/models.go) -/

/-- Post mirrors `models.Post`: the raw record decoded from the API. -/
structure Post where
  userId : Int
  id : Int
  title : String
  body : String
deriving Repr, DecidableEq

/-- TransformedPost mirrors `models.TransformedPost`: the embedded raw
post plus ingestion metadata. -/
structure TransformedPost where
  post : Post
  ingestedAt : Int
  source : String
deriving Repr, DecidableEq

/-- IngestionStatus mirrors `models.IngestionStatus`. -/
structure IngestionStatus where
  lastSuccessfulRun : Int
  lastAttempt : Int
  status : String
  errorMessage : String
  recordsIngested : Int
deriving Repr, DecidableEq

/-! ## Errors -/

/-- One failure cause of a single fetch attempt (`fetchPostsOnce`):
transport error, non-200 status, body-read error or decode error.
The retry loop treats all kinds identically. -/
inductive FetchError where
  | transport (msg : String)
  | httpStatus (code : Int)
  | readBody (msg : String)
  | decode (msg : String)
deriving Repr, DecidableEq

/-- Context cancellation cause (`ctx.Err()`). -/
inductive CtxError where
  | canceled
  | deadlineExceeded
deriving Repr, DecidableEq

/-- Result error of `fetchPosts`: either the context error returned from
the select during a backoff wait, or the final wrapped error
`failed after %d attempts: %w` carrying the retry count and the last
attempt error (`none` when no attempt ever ran). -/
inductive FetchFailure where
  | ctx (e : CtxError)
  | failedAfter (count : Int) (last : Option FetchError)
deriving Repr, DecidableEq

/-- Opaque storage backend error text. -/
abbrev StorageError := String

/-- Error of one ingestion cycle (`IngestData`), wrapping the failing
step as the Go code does with `fmt.Errorf`. -/
inductive CycleError where
  | fetchFailed (e : FetchFailure)
  | storeFailed (e : StorageError)
deriving Repr, DecidableEq

/-! ## Transformer (Service.transformPosts) -/

/-- transformPosts mirrors `Service.transformPosts`: `now` is the single
`time.Now().UTC()` sample taken at the top of the call; every element
gets that same timestamp and the constant source tag. -/
def transformPosts (posts : List Post) (now : Int) : List TransformedPost :=
  posts.map (fun p => { post := p, ingestedAt := now, source := "placeholder_api" })

/-- C3: for every input sequence, transformPosts returns a sequence of the
same length in the same order; the element at each position carries the
unchanged input record at that position, the single per-call timestamp
`now`, and the fixed source tag "placeholder_api". -/
theorem C3_transformPosts_shape (posts : List Post) (now : Int) :
    (transformPosts posts now).length = posts.length ∧
    ∀ i : Nat, (transformPosts posts now)[i]? =
      (posts[i]?).map (fun p => TransformedPost.mk p now "placeholder_api") := by
  constructor
  · simp [transformPosts]
  · intro i
    simp [transformPosts, List.getElem?_map]

/-! ## Fetcher with retry (Service.fetchPosts) -/

/-- Outcome of `fetchPosts`: the returned value or error, the number of
attempts actually performed, and the list of completed backoff waits in
chronological order, each in whole seconds. -/
structure FetchOutcome where
  result : Except FetchFailure (List Post)
  attempts : Nat
  waits : List Nat
deriving Repr

/-- fetchLoop is the body of the `for attempt := 0; attempt < retryCount`
loop of `Service.fetchPosts`, recursing on the remaining iteration fuel
`retryCount.toNat - attempt`:
* `fetchOnce i` is the outcome of `fetchPostsOnce` on attempt `i`
  (an external HTTP effect, hence a parameter);
* `cancel i` tells whether the run context becomes done during the
  backoff wait that follows a failed attempt `i` (`some e` meaning
  `ctx.Done()` fires with `ctx.Err() = e` before the `time.After` timer);
* on a failed attempt with `attempt < retryCount-1` the loop waits
  `attempt+1` seconds (recorded in the accumulator) unless cancelled;
* after the loop, the wrapped error carries `retryCount` and the last
  attempt error. -/
def fetchLoop (fetchOnce : Nat → Except FetchError (List Post))
    (cancel : Nat → Option CtxError) (retryCount : Int) :
    Nat → Nat → Option FetchError → List Nat → FetchOutcome
  | 0, attempt, lastErr, waits =>
      ⟨Except.error (FetchFailure.failedAfter retryCount lastErr), attempt, waits.reverse⟩
  | remaining + 1, attempt, _, waits =>
      match fetchOnce attempt with
      | Except.ok posts => ⟨Except.ok posts, attempt + 1, waits.reverse⟩
      | Except.error e =>
          if 0 < remaining then
            match cancel attempt with
            | some ce => ⟨Except.error (FetchFailure.ctx ce), attempt + 1, waits.reverse⟩
            | none =>
                fetchLoop fetchOnce cancel retryCount remaining (attempt + 1) (some e)
                  ((attempt + 1) :: waits)
          else
            fetchLoop fetchOnce cancel retryCount remaining (attempt + 1) (some e) waits

/-- fetchPosts mirrors `Service.fetchPosts`: run the retry loop from
attempt 0 with no last error and no waits yet. `retryCount` is the Go
`int` configuration value `s.config.RetryCount`; a non-positive value
yields zero loop iterations. -/
def fetchPosts (fetchOnce : Nat → Except FetchError (List Post))
    (cancel : Nat → Option CtxError) (retryCount : Int) : FetchOutcome :=
  fetchLoop fetchOnce cancel retryCount retryCount.toNat 0 none []

/-- Loop invariant for the success case: if no cancellation ever fires,
attempts `j, j+1, ...` up to `k-1` fail and attempt `k` succeeds within
the remaining fuel, the loop returns the successful posts after attempt
`k`, appending the waits `j+1, j+2, ..., k` to the accumulator. -/
theorem fetchLoop_first_success (fetchOnce : Nat → Except FetchError (List Post))
    (cancel : Nat → Option CtxError) (retryCount : Int) (k : Nat) (posts : List Post)
    (hok : fetchOnce k = Except.ok posts) (hcancel : ∀ i, cancel i = none) :
    ∀ f j lastErr waits, j ≤ k → k < j + f →
      (∀ i, j ≤ i → i < k → ∃ e, fetchOnce i = Except.error e) →
      fetchLoop fetchOnce cancel retryCount f j lastErr waits =
        ⟨Except.ok posts, k + 1, waits.reverse ++ List.range' (j + 1) (k - j)⟩ := by
  intro f
  induction f with
  | zero =>
      intro j lastErr waits hjk hlt _
      omega
  | succ rem ih =>
      intro j lastErr waits hjk hlt hfail
      rcases Nat.eq_or_lt_of_le hjk with heq | hjk'
      · subst heq
        simp [fetchLoop, hok]
      · obtain ⟨e, he⟩ := hfail j le_rfl hjk'
        have hrem : 0 < rem := by omega
        have heq := ih (j + 1) (some e) ((j + 1) :: waits) (by omega) (by omega)
          (fun i h1 h2 => hfail i (by omega) h2)
        have hk : k - j = (k - (j + 1)) + 1 := by omega
        simp [fetchLoop, he, hrem, hcancel j, heq, hk, List.range'_succ]

/-- C1: for every retry count N ≥ 1, if the single-attempt fetch fails on
exactly the first k attempts (k < N) and succeeds on attempt k+1 (index
k), and cancellation never fires, then fetchPosts returns the successful
record sequence after exactly k+1 attempts, having completed exactly the
k backoff waits 1s, 2s, ..., k s (List.range' 1 k = [1, 2, ..., k]) and
none after the final attempt. -/
theorem C1_fetchPosts_retry_then_success (fetchOnce : Nat → Except FetchError (List Post))
    (cancel : Nat → Option CtxError) (retryCount : Int) (k : Nat) (posts : List Post)
    (hN : 1 ≤ retryCount) (hk : (k : Int) < retryCount)
    (hfail : ∀ i, i < k → ∃ e, fetchOnce i = Except.error e)
    (hok : fetchOnce k = Except.ok posts)
    (hcancel : ∀ i, cancel i = none) :
    fetchPosts fetchOnce cancel retryCount =
      ⟨Except.ok posts, k + 1, List.range' 1 k⟩ := by
  have hk' : k < retryCount.toNat := by omega
  have := fetchLoop_first_success fetchOnce cancel retryCount k posts hok hcancel
    retryCount.toNat 0 none [] (Nat.zero_le k) (by omega)
    (fun i _ h2 => hfail i h2)
  simpa [fetchPosts] using this

/-- C1 witness: with retry count 3, a fetch failing once (HTTP 500) then
succeeding, fetchPosts succeeds after 2 attempts with one 1-second wait. -/
theorem C1_witness :
    fetchPosts
      (fun i => if i = 0 then Except.error (FetchError.httpStatus 500)
        else Except.ok [Post.mk 1 1 "T1" "B1"])
      (fun _ => none) 3 =
      ⟨Except.ok [Post.mk 1 1 "T1" "B1"], 2, [1]⟩ :=
  C1_fetchPosts_retry_then_success _ _ 3 1 [Post.mk 1 1 "T1" "B1"]
    (by decide) (by decide)
    (fun i hi => ⟨FetchError.httpStatus 500, by
      have h0 : i = 0 := by omega
      simp [h0]⟩)
    (by simp) (fun _ => rfl)

/-- Loop invariant for the exhaustion case: if no cancellation fires and
every attempt in the remaining fuel window fails (with error `err i` on
attempt `i`), the loop consumes all `f ≥ 1` iterations, waits after each
failed attempt except the last, and returns the wrapped error carrying
`retryCount` and the error of the final attempt `j + f - 1`. -/
theorem fetchLoop_all_fail (fetchOnce : Nat → Except FetchError (List Post))
    (cancel : Nat → Option CtxError) (retryCount : Int) (err : Nat → FetchError)
    (hcancel : ∀ i, cancel i = none) :
    ∀ f j lastErr waits, 1 ≤ f →
      (∀ i, j ≤ i → i < j + f → fetchOnce i = Except.error (err i)) →
      fetchLoop fetchOnce cancel retryCount f j lastErr waits =
        ⟨Except.error (FetchFailure.failedAfter retryCount (some (err (j + f - 1)))),
          j + f, waits.reverse ++ List.range' (j + 1) (f - 1)⟩ := by
  intro f
  induction f with
  | zero =>
      intro j lastErr waits hf _
      omega
  | succ rem ih =>
      intro j lastErr waits _ hfail
      have hej : fetchOnce j = Except.error (err j) := hfail j le_rfl (by omega)
      rcases Nat.eq_zero_or_pos rem with hrem | hrem
      · subst hrem
        simp [fetchLoop, hej]
      · have heq := ih (j + 1) (some (err j)) ((j + 1) :: waits) hrem
          (fun i h1 h2 => hfail i (by omega) (by omega))
        have h1 : j + 1 + rem - 1 = j + (rem + 1) - 1 := by omega
        have h2 : j + 1 + rem = j + (rem + 1) := by omega
        have h3 : rem + 1 - 1 = (rem - 1) + 1 := by omega
        simp only [fetchLoop, hej, hrem, if_pos, hcancel j, heq, h1, h2, h3,
          List.range'_succ, List.reverse_cons, List.append_assoc, List.singleton_append]

/-- C4: for every retry count N ≥ 1, if every one of the N fetch attempts
fails (attempt `i` with error `err i`) and cancellation never fires,
fetchPosts returns no records: its result is the error wrapping the
attempt count N and the last attempt's underlying cause, after exactly N
attempts and the N-1 full backoff waits 1s, ..., (N-1)s. -/
theorem C4_fetchPosts_all_fail (fetchOnce : Nat → Except FetchError (List Post))
    (cancel : Nat → Option CtxError) (retryCount : Int) (err : Nat → FetchError)
    (hN : 1 ≤ retryCount)
    (hfail : ∀ i, i < retryCount.toNat → fetchOnce i = Except.error (err i))
    (hcancel : ∀ i, cancel i = none) :
    fetchPosts fetchOnce cancel retryCount =
      ⟨Except.error (FetchFailure.failedAfter retryCount (some (err (retryCount.toNat - 1)))),
        retryCount.toNat, List.range' 1 (retryCount.toNat - 1)⟩ := by
  have hf : 1 ≤ retryCount.toNat := by omega
  have := fetchLoop_all_fail fetchOnce cancel retryCount err hcancel
    retryCount.toNat 0 none [] hf (fun i _ h2 => hfail i (by omega))
  simpa [fetchPosts] using this

/-- C4 witness: with retry count 2 and every attempt failing with HTTP
500, fetchPosts makes 2 attempts, waits once for 1 second, and fails
with the wrapped error naming 2 attempts and the last cause. -/
theorem C4_witness :
    fetchPosts (fun _ => Except.error (FetchError.httpStatus 500)) (fun _ => none) 2 =
      ⟨Except.error (FetchFailure.failedAfter 2 (some (FetchError.httpStatus 500))),
        2, [1]⟩ :=
  C4_fetchPosts_all_fail _ _ 2 (fun _ => FetchError.httpStatus 500)
    (by decide) (fun i _ => rfl) (fun _ => rfl)

/-- Loop invariant for the cancellation case: attempts `j..c` all fail,
cancellation does not fire during the waits before attempt `c` but fires
during the wait after attempt `c`, and attempt `c` is not the last one
(so a wait does happen after it); then the loop stops right there with
the context error, after `c + 1` attempts. -/
theorem fetchLoop_cancel_during_wait (fetchOnce : Nat → Except FetchError (List Post))
    (cancel : Nat → Option CtxError) (retryCount : Int) (c : Nat) (ce : CtxError)
    (hc : cancel c = some ce) :
    ∀ f j lastErr waits, j ≤ c → c + 1 < j + f →
      (∀ i, j ≤ i → i ≤ c → ∃ e, fetchOnce i = Except.error e) →
      (∀ i, j ≤ i → i < c → cancel i = none) →
      fetchLoop fetchOnce cancel retryCount f j lastErr waits =
        ⟨Except.error (FetchFailure.ctx ce), c + 1,
          waits.reverse ++ List.range' (j + 1) (c - j)⟩ := by
  intro f
  induction f with
  | zero =>
      intro j lastErr waits hjc hlt _ _
      omega
  | succ rem ih =>
      intro j lastErr waits hjc hlt hfail hnone
      have hrem : 0 < rem := by omega
      rcases Nat.eq_or_lt_of_le hjc with heq | hjc'
      · subst heq
        obtain ⟨e, he⟩ := hfail j le_rfl le_rfl
        simp [fetchLoop, he, hrem, hc]
      · obtain ⟨e, he⟩ := hfail j le_rfl (by omega)
        have heq := ih (j + 1) (some e) ((j + 1) :: waits) (by omega) (by omega)
          (fun i h1 h2 => hfail i (by omega) h2)
          (fun i h1 h2 => hnone i (by omega) h2)
        have hk : c - j = (c - (j + 1)) + 1 := by omega
        simp [fetchLoop, he, hrem, hnone j le_rfl hjc', heq, hk, List.range'_succ]

/-- C5: if attempts 0..m all fail, the context is not cancelled during the
waits before attempt m but becomes cancelled during the backoff wait
following failed attempt m (which exists because m is not the final
attempt), then fetchPosts aborts right there: it performs no further
attempt and returns the context's cancellation error, not the underlying
fetch error of the failed attempt. -/
theorem C5_fetchPosts_cancelled_during_wait (fetchOnce : Nat → Except FetchError (List Post))
    (cancel : Nat → Option CtxError) (retryCount : Int) (m : Nat) (ce : CtxError)
    (hm : m + 1 < retryCount.toNat)
    (hfail : ∀ i, i ≤ m → ∃ e, fetchOnce i = Except.error e)
    (hbefore : ∀ i, i < m → cancel i = none)
    (hcancel : cancel m = some ce) :
    fetchPosts fetchOnce cancel retryCount =
      ⟨Except.error (FetchFailure.ctx ce), m + 1, List.range' 1 m⟩ := by
  have := fetchLoop_cancel_during_wait fetchOnce cancel retryCount m ce hcancel
    retryCount.toNat 0 none [] (Nat.zero_le m) (by omega)
    (fun i _ h2 => hfail i h2) (fun i _ h2 => hbefore i h2)
  simpa [fetchPosts] using this

/-- C5 witness: with retry count 3, attempt 0 failing and the context
cancelled during the first backoff wait, fetchPosts returns the
cancellation error after exactly one attempt and no completed wait. -/
theorem C5_witness :
    fetchPosts (fun _ => Except.error (FetchError.httpStatus 500))
      (fun _ => some CtxError.canceled) 3 =
      ⟨Except.error (FetchFailure.ctx CtxError.canceled), 1, []⟩ :=
  C5_fetchPosts_cancelled_during_wait _ _ 3 0 CtxError.canceled
    (by decide) (fun i _ => ⟨FetchError.httpStatus 500, rfl⟩)
    (fun i hi => absurd hi (Nat.not_lt_zero i)) rfl

/-! ## Ingestion cycle (Service.IngestData) and its storage calls -/

/-- One invocation of an operation of the `storage.Storage` interface,
recorded with its argument. -/
inductive StorageCall where
  | storePosts (posts : List TransformedPost)
  | getPosts (limit offset : Int)
  | getPostById (id : Int)
  | updateIngestionStatus (status : IngestionStatus)
  | getIngestionStatus
  | close
deriving Repr, DecidableEq

/-- IngestData mirrors `Service.IngestData`: fetch (its outcome passed in
as `fetched`), transform with the single time sample `now`, then call
`storage.StorePosts` (its backend response passed in as `storeResult`).
Returns the cycle result together with the trace of Storage interface
calls the cycle performed, in order. -/
def IngestData (fetched : Except FetchFailure (List Post)) (now : Int)
    (storeResult : List TransformedPost → Except StorageError Unit) :
    Except CycleError Unit × List StorageCall :=
  match fetched with
  | Except.error e => (Except.error (CycleError.fetchFailed e), [])
  | Except.ok posts =>
      match storeResult (transformPosts posts now) with
      | Except.error e =>
          (Except.error (CycleError.storeFailed e),
            [StorageCall.storePosts (transformPosts posts now)])
      | Except.ok _ =>
          (Except.ok (), [StorageCall.storePosts (transformPosts posts now)])

/-- C6: whether the cycle succeeds or fails, the trace of Storage
operations invoked by IngestData is either empty (fetch failed) or the
single StorePosts call on the transformed batch; in particular the cycle
never invokes UpdateIngestionStatus (nor any other Storage operation),
so the ingestion-status record is left unchanged by every cycle. -/
theorem C6_IngestData_only_storePosts (fetched : Except FetchFailure (List Post))
    (now : Int) (storeResult : List TransformedPost → Except StorageError Unit) :
    ((IngestData fetched now storeResult).2 = [] ∨
      ∃ posts, fetched = Except.ok posts ∧
        (IngestData fetched now storeResult).2 =
          [StorageCall.storePosts (transformPosts posts now)]) ∧
    (∀ st, StorageCall.updateIngestionStatus st ∉ (IngestData fetched now storeResult).2) := by
  cases fetched with
  | error e => simp [IngestData]
  | ok posts =>
      cases h : storeResult (transformPosts posts now) with
      | error e => simp [IngestData, h]
      | ok u => simp [IngestData, h]

/-- C6 witness: a concrete successful cycle over one post performs
exactly the one StorePosts call and no UpdateIngestionStatus call. -/
theorem C6_witness :
    ((IngestData (Except.ok [Post.mk 1 1 "T1" "B1"]) 7 (fun _ => Except.ok ())).2 = [] ∨
      ∃ posts, (Except.ok [Post.mk 1 1 "T1" "B1"] : Except FetchFailure (List Post)) =
          Except.ok posts ∧
        (IngestData (Except.ok [Post.mk 1 1 "T1" "B1"]) 7 (fun _ => Except.ok ())).2 =
          [StorageCall.storePosts (transformPosts posts 7)]) ∧
    (∀ st, StorageCall.updateIngestionStatus st ∉
      (IngestData (Except.ok [Post.mk 1 1 "T1" "B1"]) 7 (fun _ => Except.ok ())).2) :=
  C6_IngestData_only_storePosts (Except.ok [Post.mk 1 1 "T1" "B1"]) 7 (fun _ => Except.ok ())

/-! ## Periodic loop (Service.Start) -/

/-- One event observed by the select loop of `Service.Start`: a ticker
tick (after which one cycle runs, with the given result) or the run
context becoming done with the given cancellation error. -/
inductive LoopEvent where
  | tick (cycleResult : Except CycleError Unit)
  | cancel (e : CtxError)
deriving Repr

/-- Observable outcome of `Service.Start` on a finite prefix of events:
the wrapped initial-cycle failure, the context error returned on
cancellation, or still running (the loop never returns by itself). -/
inductive StartOutcome where
  | initialFailure (e : CycleError)
  | canceledWith (e : CtxError)
  | running
deriving Repr

/-- startLoop mirrors the infinite `for { select ... } }` of
`Service.Start` on a finite prefix of events: a tick runs a cycle whose
error is only logged, never propagated; the first context-done event
returns the context error. -/
def startLoop : List LoopEvent → StartOutcome
  | [] => StartOutcome.running
  | LoopEvent.cancel e :: _ => StartOutcome.canceledWith e
  | LoopEvent.tick _ :: rest => startLoop rest

/-- Start mirrors `Service.Start`: run one initial cycle synchronously
(its result passed in as `initial`); on failure return it wrapped
(`initial ingestion failed: %w`) without entering the loop, otherwise
enter the select loop. -/
def Start (initial : Except CycleError Unit) (events : List LoopEvent) : StartOutcome :=
  match initial with
  | Except.error e => StartOutcome.initialFailure e
  | Except.ok _ => startLoop events

/-- C2: Start runs the initial cycle synchronously and, if it fails,
returns that error immediately without consuming any loop event; once in
the loop, tick-cycle errors never terminate the loop (any cancel-free
event prefix leaves it running); and the loop exits exactly at the first
context cancellation, returning the context's cancellation error. -/
theorem C2_Start_lifecycle :
    (∀ e events, Start (Except.error e) events = StartOutcome.initialFailure e) ∧
    (∀ events, (∀ ev, ev ∈ events → ∀ ce, ev ≠ LoopEvent.cancel ce) →
      Start (Except.ok ()) events = StartOutcome.running) ∧
    (∀ pre e post, (∀ ev, ev ∈ pre → ∃ r, ev = LoopEvent.tick r) →
      Start (Except.ok ()) (pre ++ LoopEvent.cancel e :: post) =
        StartOutcome.canceledWith e) := by
  refine ⟨fun e events => rfl, ?_, ?_⟩
  · intro events h
    induction events with
    | nil => rfl
    | cons ev rest ih =>
        cases ev with
        | tick r =>
            exact ih (fun ev hm => h ev (List.mem_cons_of_mem _ hm))
        | cancel ce =>
            exact absurd rfl (h (LoopEvent.cancel ce) (List.mem_cons_self _ _) ce)
  · intro pre e post h
    induction pre with
    | nil => rfl
    | cons ev rest ih =>
        obtain ⟨r, hr⟩ := h ev (List.mem_cons_self _ _)
        subst hr
        exact ih (fun ev hm => h ev (List.mem_cons_of_mem _ hm))

/-- C2 witness: a failing initial cycle returns immediately; a prefix of
failing ticks leaves the loop running; a cancel after a failing tick
returns the context's error. -/
theorem C2_witness :
    Start (Except.error (CycleError.storeFailed "boom")) [LoopEvent.cancel CtxError.canceled] =
      StartOutcome.initialFailure (CycleError.storeFailed "boom") ∧
    Start (Except.ok ()) [LoopEvent.tick (Except.error (CycleError.storeFailed "boom"))] =
      StartOutcome.running ∧
    Start (Except.ok ())
      ([LoopEvent.tick (Except.error (CycleError.storeFailed "boom"))] ++
        LoopEvent.cancel CtxError.canceled :: []) =
      StartOutcome.canceledWith CtxError.canceled := by
  refine ⟨C2_Start_lifecycle.1 _ _, C2_Start_lifecycle.2.1 _ ?_, C2_Start_lifecycle.2.2 _ _ _ ?_⟩
  · intro ev hm ce
    simp only [List.mem_singleton] at hm
    subst hm
    intro hc
    cases hc
  · intro ev hm
    simp only [List.mem_singleton] at hm
    exact ⟨_, hm⟩

/-- C10: with a zero or negative configured retry count, fetchPosts
performs no attempt at all and returns the wrapped error carrying that
non-positive count and no underlying cause; consequently the initial
ingestion cycle always fails with that fetch error, so Start always
fails at startup, whatever the storage responses and loop events are. -/
theorem C10_nonpositive_retryCount (fetchOnce : Nat → Except FetchError (List Post))
    (cancel : Nat → Option CtxError) (retryCount : Int) (hrc : retryCount ≤ 0) :
    fetchPosts fetchOnce cancel retryCount =
      ⟨Except.error (FetchFailure.failedAfter retryCount none), 0, []⟩ ∧
    ∀ (now : Int) (storeResult : List TransformedPost → Except StorageError Unit)
      (events : List LoopEvent),
      Start ((IngestData (fetchPosts fetchOnce cancel retryCount).result now storeResult).1)
          events =
        StartOutcome.initialFailure
          (CycleError.fetchFailed (FetchFailure.failedAfter retryCount none)) := by
  have ht : retryCount.toNat = 0 := Int.toNat_of_nonpos hrc
  have hfp : fetchPosts fetchOnce cancel retryCount =
      ⟨Except.error (FetchFailure.failedAfter retryCount none), 0, []⟩ := by
    simp [fetchPosts, ht, fetchLoop]
  refine ⟨hfp, fun now storeResult events => ?_⟩
  rw [hfp]
  rfl

/-- C10 witness: with retry count 0 and a fetch that would always
succeed, no attempt runs, the error wraps count 0 and no cause, and
Start fails at startup. -/
theorem C10_witness :
    fetchPosts (fun _ => Except.ok []) (fun _ => none) 0 =
      ⟨Except.error (FetchFailure.failedAfter 0 none), 0, []⟩ ∧
    ∀ (now : Int) (storeResult : List TransformedPost → Except StorageError Unit)
      (events : List LoopEvent),
      Start ((IngestData (fetchPosts (fun _ => Except.ok []) (fun _ => none) 0).result
          now storeResult).1) events =
        StartOutcome.initialFailure
          (CycleError.fetchFailed (FetchFailure.failedAfter 0 none)) :=
  C10_nonpositive_retryCount (fun _ => Except.ok []) (fun _ => none) 0 (by decide)

/-! ## Storage backends (internal/storage) -/

/-- GetPosts of `DynamoDBStorage` on the happy path: the backend `Scan`
evaluates at most `limit` items of the stored table (modelled as the
first `limit` stored records) and the function returns them unmarshalled.
The `offset` parameter appears in the signature but is never used in the
body, exactly as in the source. -/
def dynamoGetPosts (stored : List TransformedPost) (limit offset : Int) :
    List TransformedPost :=
  stored.take limit.toNat

/-- First sample stored record, ids distinct from the second. -/
def storedPost1 : TransformedPost := ⟨⟨1, 1, "T1", "B1"⟩, 5, "placeholder_api"⟩

/-- Second sample stored record. -/
def storedPost2 : TransformedPost := ⟨⟨1, 2, "T2", "B2"⟩, 5, "placeholder_api"⟩

/-- C7 (bug exhibit): on the stored data [p1, p2] with limit 1, the
DynamoDB GetPosts returns [p1] for offset 1 just as for offset 0 — the
offset parameter is ignored, so the claimed window [p2] (skip the first
offset records) is not returned and different offsets select the same
window. -/
theorem C7_getPosts_ignores_offset :
    dynamoGetPosts [storedPost1, storedPost2] 1 1 = [storedPost1] ∧
    dynamoGetPosts [storedPost1, storedPost2] 1 0 =
      dynamoGetPosts [storedPost1, storedPost2] 1 1 ∧
    dynamoGetPosts [storedPost1, storedPost2] 1 1 ≠
      (List.drop 1 [storedPost1, storedPost2]).take 1 := by
  refine ⟨rfl, rfl, ?_⟩
  intro h
  simp only [List.drop, List.take, dynamoGetPosts, Int.toNat_one] at h
  have := List.head_eq_of_cons_eq h
  simp [storedPost1, storedPost2] at this

/-- GetIngestionStatus of `DynamoDBStorage`: `item` is the backend
`GetItem` response on the fixed status key (an error, no item, or the
unmarshalled stored status). When no item exists the default status
"never_run" (all other fields zero values) is returned with no error. -/
def dynamoGetIngestionStatus (item : Except StorageError (Option IngestionStatus)) :
    Except StorageError IngestionStatus :=
  match item with
  | Except.error e => Except.error ("failed to get ingestion status: " ++ e)
  | Except.ok none => Except.ok ⟨0, 0, "never_run", "", 0⟩
  | Except.ok (some s) => Except.ok s

/-- Modelled from the spec: the MongoDB Storage backend implementation is
not under src (only its constructor call in `NewStorage` is); per the
spec, its getIngestionStatus returns an IngestionStatus defaulted to
status=never_run if the record is absent, and a StorageError otherwise
propagates. -/
def mongoGetIngestionStatus (item : Except StorageError (Option IngestionStatus)) :
    Except StorageError IngestionStatus :=
  match item with
  | Except.error e => Except.error e
  | Except.ok none => Except.ok ⟨0, 0, "never_run", "", 0⟩
  | Except.ok (some s) => Except.ok s

/-- Modelled from the spec: the PostgreSQL Storage backend implementation
is not under src (only its constructor call in `NewStorage` is); per the
spec, its getIngestionStatus returns an IngestionStatus defaulted to
status=never_run if the record is absent, and a StorageError otherwise
propagates. -/
def postgresGetIngestionStatus (item : Except StorageError (Option IngestionStatus)) :
    Except StorageError IngestionStatus :=
  match item with
  | Except.error e => Except.error e
  | Except.ok none => Except.ok ⟨0, 0, "never_run", "", 0⟩
  | Except.ok (some s) => Except.ok s

/-- The configured backend variant selected by `NewStorage`. -/
inductive StorageKind where
  | dynamodb
  | mongodb
  | postgresql
deriving Repr, DecidableEq

/-- GetIngestionStatus of whichever backend is configured. -/
def getIngestionStatusOf (kind : StorageKind)
    (item : Except StorageError (Option IngestionStatus)) :
    Except StorageError IngestionStatus :=
  match kind with
  | StorageKind.dynamodb => dynamoGetIngestionStatus item
  | StorageKind.mongodb => mongoGetIngestionStatus item
  | StorageKind.postgresql => postgresGetIngestionStatus item

/-- C8: before any status record has ever been written (the backend
lookup succeeds and finds no item), GetIngestionStatus succeeds and
returns a status whose status field is "never_run", regardless of which
storage backend is configured. -/
theorem C8_getIngestionStatus_never_run (kind : StorageKind) :
    ∃ s, getIngestionStatusOf kind (Except.ok none) = Except.ok s ∧
      s.status = "never_run" := by
  cases kind <;>
    exact ⟨⟨0, 0, "never_run", "", 0⟩, rfl, rfl⟩

/-! ## Configuration (internal/config) and storage selection -/

/-- StorageConfig mirrors `config.StorageConfig` (the Go field `Type` is
rendered `storageType`). -/
structure StorageConfig where
  storageType : String
  region : String
  tableName : String
  endpoint : String
  mongoDBURI : String
  postgresURI : String
deriving Repr, DecidableEq

/-- IngestionConfig mirrors `config.IngestionConfig`; durations are
nanoseconds. -/
structure IngestionConfig where
  apiEndpoint : String
  interval : Int
  timeout : Int
  retryCount : Int
deriving Repr, DecidableEq

/-- ServerConfig mirrors `config.ServerConfig`. -/
structure ServerConfig where
  port : Int
deriving Repr, DecidableEq

/-- Config mirrors `config.Config`. -/
structure Config where
  storage : StorageConfig
  ingestion : IngestionConfig
  server : ServerConfig
deriving Repr, DecidableEq

/-- getEnv mirrors `config.getEnv`: `env` is `os.Getenv` (returning ""
for an unset variable); any non-empty value is used verbatim. -/
def getEnv (env : String → String) (key dflt : String) : String :=
  if env key ≠ "" then env key else dflt

/-- getEnvInt mirrors `config.getEnvInt`: `atoi` is `strconv.Atoi`
(`none` on a parse error); a non-empty value that fails to parse falls
back to the default. -/
def getEnvInt (atoi : String → Option Int) (env : String → String)
    (key : String) (dflt : Int) : Int :=
  if env key ≠ "" then
    match atoi (env key) with
    | some v => v
    | none => dflt
  else dflt

/-- getEnvDuration mirrors `config.getEnvDuration`: `parseDur` is
`time.ParseDuration` in nanoseconds (`none` on a parse error); a
non-empty value that fails to parse falls back to the default. -/
def getEnvDuration (parseDur : String → Option Int) (env : String → String)
    (key : String) (dflt : Int) : Int :=
  if env key ≠ "" then
    match parseDur (env key) with
    | some v => v
    | none => dflt
  else dflt

/-- Load mirrors `config.Load` (which never returns an error): build the
configuration from the environment with the documented defaults. -/
def Load (atoi : String → Option Int) (parseDur : String → Option Int)
    (env : String → String) : Config :=
  { storage :=
      { storageType := getEnv env "STORAGE_TYPE" "dynamodb"
        region := getEnv env "AWS_REGION" "us-west-2"
        tableName := getEnv env "TABLE_NAME" "ingested_data"
        endpoint := getEnv env "DYNAMODB_ENDPOINT" ""
        mongoDBURI := getEnv env "MONGODB_URI" ""
        postgresURI := getEnv env "POSTGRES_URI" "" }
    ingestion :=
      { apiEndpoint := getEnv env "API_ENDPOINT" "https://jsonplaceholder.typicode.com/posts"
        interval := getEnvDuration parseDur env "INGESTION_INTERVAL" 300000000000
        timeout := getEnvDuration parseDur env "API_TIMEOUT" 30000000000
        retryCount := getEnvInt atoi env "RETRY_COUNT" 3 }
    server := { port := getEnvInt atoi env "SERVER_PORT" 8080 } }

/-- NewStorage mirrors `storage.NewStorage`: dispatch on the configured
type string; an unsupported type fails construction (the backend
constructors themselves are external effects, so only the selection is
modelled). -/
def NewStorage (cfg : StorageConfig) : Except String StorageKind :=
  match cfg.storageType with
  | "dynamodb" => Except.ok StorageKind.dynamodb
  | "mongodb" => Except.ok StorageKind.mongodb
  | "postgresql" => Except.ok StorageKind.postgresql
  | t => Except.error ("unsupported storage type: " ++ t)

/-- Environment for the C9 counterexample: STORAGE_TYPE is set to the
malformed value "redis" (not one of the enumerated backends), everything
else unset. -/
def redisEnv : String → String :=
  fun key => if key = "STORAGE_TYPE" then "redis" else ""

/-- C9 counterexample: with STORAGE_TYPE malformed ("redis"), Load does
not fall back to the documented default "dynamodb" — it passes the value
through verbatim — and storage construction then fails instead of
silently using a default. -/
theorem C9_counterexample_storage_type :
    (Load (fun _ => none) (fun _ => none) redisEnv).storage.storageType = "redis" ∧
    (Load (fun _ => none) (fun _ => none) redisEnv).storage.storageType ≠ "dynamodb" ∧
    NewStorage (Load (fun _ => none) (fun _ => none) redisEnv).storage =
      Except.error "unsupported storage type: redis" := by
  refine ⟨rfl, ?_, rfl⟩
  decide

/-- C9 (amended): malformed values of the parsed variables
INGESTION_INTERVAL, API_TIMEOUT, RETRY_COUNT and SERVER_PORT silently
fall back to their documented defaults (5m, 30s, 3, 8080); STORAGE_TYPE
and API_ENDPOINT are not validated at load time: any non-empty value is
passed through verbatim, and a STORAGE_TYPE outside
{dynamodb, mongodb, postgresql} makes storage construction fail rather
than fall back to a default. -/
theorem C9_amended_fallbacks (atoi parseDur : String → Option Int)
    (env : String → String) :
    (parseDur (env "INGESTION_INTERVAL") = none →
      (Load atoi parseDur env).ingestion.interval = 300000000000) ∧
    (parseDur (env "API_TIMEOUT") = none →
      (Load atoi parseDur env).ingestion.timeout = 30000000000) ∧
    (atoi (env "RETRY_COUNT") = none →
      (Load atoi parseDur env).ingestion.retryCount = 3) ∧
    (atoi (env "SERVER_PORT") = none →
      (Load atoi parseDur env).server.port = 8080) ∧
    (env "STORAGE_TYPE" ≠ "" →
      (Load atoi parseDur env).storage.storageType = env "STORAGE_TYPE") ∧
    (env "API_ENDPOINT" ≠ "" →
      (Load atoi parseDur env).ingestion.apiEndpoint = env "API_ENDPOINT") ∧
    (env "STORAGE_TYPE" ≠ "" → env "STORAGE_TYPE" ≠ "dynamodb" →
      env "STORAGE_TYPE" ≠ "mongodb" → env "STORAGE_TYPE" ≠ "postgresql" →
      NewStorage (Load atoi parseDur env).storage =
        Except.error ("unsupported storage type: " ++ env "STORAGE_TYPE")) := by
  refine ⟨?_, ?_, ?_, ?_, ?_, ?_, ?_⟩
  · intro h
    simp [Load, getEnvDuration, h]
  · intro h
    simp [Load, getEnvDuration, h]
  · intro h
    simp [Load, getEnvInt, h]
  · intro h
    simp [Load, getEnvInt, h]
  · intro h
    simp [Load, getEnv, h]
  · intro h
    simp [Load, getEnv, h]
  · intro h h1 h2 h3
    have hs : (Load atoi parseDur env).storage.storageType = env "STORAGE_TYPE" := by
      simp [Load, getEnv, h]
    rw [NewStorage, hs]
    split
    · exact absurd (by assumption) h1
    · exact absurd (by assumption) h2
    · exact absurd (by assumption) h3
    · rfl

/-- C9 amended witness: with every relevant variable set to the malformed
value "???" (which neither Atoi nor ParseDuration accepts), the parsed
variables come out as their defaults while STORAGE_TYPE is passed
through and storage construction fails. -/
theorem C9_amended_witness :
    (Load (fun _ => none) (fun _ => none) (fun _ => "???")).ingestion.interval =
        300000000000 ∧
    (Load (fun _ => none) (fun _ => none) (fun _ => "???")).ingestion.timeout =
        30000000000 ∧
    (Load (fun _ => none) (fun _ => none) (fun _ => "???")).ingestion.retryCount = 3 ∧
    (Load (fun _ => none) (fun _ => none) (fun _ => "???")).server.port = 8080 ∧
    (Load (fun _ => none) (fun _ => none) (fun _ => "???")).storage.storageType = "???" ∧
    (Load (fun _ => none) (fun _ => none) (fun _ => "???")).ingestion.apiEndpoint = "???" ∧
    NewStorage (Load (fun _ => none) (fun _ => none) (fun _ => "???")).storage =
      Except.error ("unsupported storage type: " ++ "???") := by
  obtain ⟨h1, h2, h3, h4, h5, h6, h7⟩ :=
    C9_amended_fallbacks (fun _ => none) (fun _ => none) (fun _ => "???")
  exact ⟨h1 rfl, h2 rfl, h3 rfl, h4 rfl, h5 (by decide), h6 (by decide),
    h7 (by decide) (by decide) (by decide) (by decide)⟩

end Ingestion
